import Mathlib

/-!
Verification of the QuantCanvas valuation & classification engine.

The definitions below are a shallow embedding of the derived-value logic in
`src/components/dashboard/PortfolioTracker.tsx` (holdings arithmetic),
`src/components/dashboard/EconomicCalendar.tsx` (importance grouping, colors,
mock event data) and `src/components/dashboard/StrategyBuilder.tsx`
(strategy creation).  JavaScript numbers are modelled as rationals; where a
division by zero matters (JS yields Infinity/NaN) a variant returning
`Option ℚ` marks the non-finite outcome as `none`.
-/

/-- `Holding.type` field of `PortfolioTracker.tsx`. -/
inductive InstrumentType
  | stock | crypto | etf | commodity
deriving DecidableEq, Repr

/-- The `Holding` interface of `PortfolioTracker.tsx`. -/
structure Holding where
  id : String
  symbol : String
  hname : String
  itype : InstrumentType
  quantity : ℚ
  currentPrice : ℚ
  averageCost : ℚ
  change : ℚ
deriving DecidableEq, Repr

/-- `currentValue = holding.quantity * holding.currentPrice`
(PortfolioTracker.tsx line 72, and line 28 inside the reduce). -/
def currentValue (h : Holding) : ℚ := h.quantity * h.currentPrice

/-- `costBasis = holding.quantity * holding.averageCost`
(PortfolioTracker.tsx line 29; inlined twice at lines 73–74). -/
def costBasis (h : Holding) : ℚ := h.quantity * h.averageCost

/-- `gainLoss = currentValue - (holding.quantity * holding.averageCost)`
(PortfolioTracker.tsx line 73). -/
def gainLoss (h : Holding) : ℚ := currentValue h - costBasis h

/-- `gainLossPercent = (gainLoss / (quantity * averageCost)) * 100`
(PortfolioTracker.tsx line 74), with exact rational division.  JS semantics
of the zero-divisor case are captured by `gainLossPercentNum`. -/
def gainLossPercent (h : Holding) : ℚ := gainLoss h / costBasis h * 100

/-- The same expression as `gainLossPercent`, under JS number semantics:
the source divides unconditionally, and when the divisor
`quantity * averageCost` is `0` the JS result is `Infinity` or `NaN`.
A finite result is `some`, a non-finite one is `none`. -/
def gainLossPercentNum (h : Holding) : Option ℚ :=
  if costBasis h = 0 then none else some (gainLoss h / costBasis h * 100)

/-- `totalGainLoss = holdings.reduce((sum, holding) => { ... return sum +
(currentValue - costBasis); }, 0)` (PortfolioTracker.tsx lines 27–31). -/
def totalGainLoss (holdings : List Holding) : ℚ :=
  holdings.foldl (fun sum h => sum + (currentValue h - costBasis h)) 0

/-- `totalGainLossPercent = (totalGainLoss / (portfolioValue - totalGainLoss))
* 100` (PortfolioTracker.tsx line 33); `portfolioValue` is the externally
supplied state scalar, not derived from the holdings. -/
def totalGainLossPercent (portfolioValue : ℚ) (holdings : List Holding) : ℚ :=
  totalGainLoss holdings / (portfolioValue - totalGainLoss holdings) * 100

/-- JS-number variant of `totalGainLossPercent`: the source divides
unconditionally, so a zero divisor yields a non-finite value (`none`). -/
def totalGainLossPercentNum (portfolioValue : ℚ) (holdings : List Holding) :
    Option ℚ :=
  if portfolioValue - totalGainLoss holdings = 0 then none
  else some (totalGainLoss holdings / (portfolioValue - totalGainLoss holdings) * 100)

/-- The mock holdings array of `PortfolioTracker.tsx` lines 19–25. -/
def mockHoldings : List Holding :=
  [ ⟨"1", "AAPL", "Apple Inc.", .stock, 50, 175.25, 165.50, 2.3⟩,
    ⟨"2", "BTC", "Bitcoin", .crypto, 0.5, 62500.75, 58000.00, 5.8⟩,
    ⟨"3", "ETH", "Ethereum", .crypto, 3.2, 3250.50, 3100.00, 1.9⟩,
    ⟨"4", "GLD", "SPDR Gold Shares", .commodity, 25, 185.75, 180.25, -0.5⟩,
    ⟨"5", "NVDA", "NVIDIA Corp", .stock, 15, 950.25, 850.50, 8.2⟩ ]

/-- The `portfolioValue` state scalar of `PortfolioTracker.tsx` line 17. -/
def mockPortfolioValue : ℚ := 125430.75

/-- `surprise` field values of `EconomicCalendar.tsx` line 13. -/
inductive Surprise
  | positive | negative | neutral
deriving DecidableEq, Repr

/-- The `EconomicEvent` interface of `EconomicCalendar.tsx` lines 5–14;
`importance` is typed `1 | 2 | 3 | 4 | 5` in the source. -/
structure EconomicEvent where
  id : String
  time : String
  ename : String
  country : String
  importance : ℕ
  forecast : String
  actual : String
  surprise : Surprise
deriving DecidableEq, Repr

/-- The mock `events` state array of `EconomicCalendar.tsx` lines 18–26. -/
def mockEvents : List EconomicEvent :=
  [ ⟨"1", "08:30 ET", "CPI Inflation", "US", 5, "3.2%", "3.1%", .positive⟩,
    ⟨"2", "08:30 ET", "Retail Sales", "US", 4, "+0.4%", "+0.6%", .positive⟩,
    ⟨"3", "10:00 ET", "Business Inventories", "US", 2, "+0.2%", "+0.1%", .negative⟩,
    ⟨"4", "11:30 ET", "4-Week Bill Auction", "US", 3, "4.85%", "4.82%", .positive⟩,
    ⟨"5", "13:00 ET", "3-Yr Note Auction", "US", 3, "4.25%", "4.28%", .negative⟩,
    ⟨"6", "14:00 ET", "Treasury Buyback Results", "US", 2, "N/A", "Completed", .neutral⟩,
    ⟨"7", "15:15 ET", "Raphael Bostic Speaks", "US", 4, "N/A", "Scheduled", .neutral⟩ ]

/-- `events.filter(event => event.importance >= 4)`
(EconomicCalendar.tsx line 28). -/
def highImpactEvents (events : List EconomicEvent) : List EconomicEvent :=
  events.filter (fun e => 4 ≤ e.importance)

/-- `events.filter(event => event.importance === 3)`
(EconomicCalendar.tsx line 29). -/
def mediumImpactEvents (events : List EconomicEvent) : List EconomicEvent :=
  events.filter (fun e => e.importance = 3)

/-- `events.filter(event => event.importance <= 2)`
(EconomicCalendar.tsx line 30). -/
def lowImpactEvents (events : List EconomicEvent) : List EconomicEvent :=
  events.filter (fun e => e.importance ≤ 2)

/-- `getImportanceColor` (EconomicCalendar.tsx lines 32–40): a switch over
the importance number whose `default` case is the gray style. -/
def getImportanceColor (importance : ℕ) : String :=
  if importance = 5 then "bg-red-100 dark:bg-red-900 text-red-800 dark:text-red-200"
  else if importance = 4 then "bg-orange-100 dark:bg-orange-900 text-orange-800 dark:text-orange-200"
  else if importance = 3 then "bg-yellow-100 dark:bg-yellow-900 text-yellow-800 dark:text-yellow-200"
  else if importance = 2 then "bg-blue-100 dark:bg-blue-900 text-blue-800 dark:text-blue-200"
  else "bg-gray-100 dark:bg-gray-900 text-gray-800 dark:text-gray-200"

/-- The importance tiers High/Medium/Low. -/
inductive ImpactTier
  | High | Medium | Low
deriving DecidableEq, Repr

/-- The tier induced by the three grouping filters of `EconomicCalendar.tsx`
lines 28–30: `importance >= 4` lands in the high-impact group,
`importance === 3` in the medium group, and the rest (`importance <= 2` on
the source's 1–5 domain) in the low group. -/
def classifyImportance (importance : ℕ) : ImpactTier :=
  if 4 ≤ importance then .High
  else if importance = 3 then .Medium
  else .Low

/-- Decimal digits folded into a natural number, most significant first. -/
def digitsToNat (cs : List Char) : ℕ :=
  cs.foldl (fun n c => 10 * n + (c.toNat - Char.toNat '0')) 0

/-- Modelled from the spec: the unsigned part of "parse as signed decimal
magnitudes (numeric suffix stripped)".  Reads leading integer digits, then an
optional `.` followed by fractional digits, ignoring any trailing suffix such
as `"%"`; returns the digit string read as a natural number together with the
count of fractional digits, or `none` when no leading digit exists
(non-numeric strings such as "N/A", "Scheduled", "Completed"). -/
def parseUnsigned (cs : List Char) : Option (ℕ × ℕ) :=
  let intPart := cs.takeWhile Char.isDigit
  let rest := cs.dropWhile Char.isDigit
  let fracPart :=
    match rest with
    | '.' :: t => t.takeWhile Char.isDigit
    | _ => []
  if intPart.isEmpty then none
  else some (digitsToNat (intPart ++ fracPart), fracPart.length)

/-- Modelled from the spec: a signed decimal magnitude — an optional `+`/`-`
sign followed by `parseUnsigned`.  The parsed number is represented as a
mantissa/scale pair whose rational value is `decimalValue`. -/
def parseSignedDecimal (s : String) : Option (ℤ × ℕ) :=
  match s.toList with
  | '+' :: t => (parseUnsigned t).map (fun d => ((d.1 : ℤ), d.2))
  | '-' :: t => (parseUnsigned t).map (fun d => (-(d.1 : ℤ), d.2))
  | t => (parseUnsigned t).map (fun d => ((d.1 : ℤ), d.2))

/-- The rational value of a parsed decimal: mantissa over `10 ^ scale`. -/
def decimalValue (d : ℤ × ℕ) : ℚ := (d.1 : ℚ) / 10 ^ d.2

/-- Modelled from the spec: `classifySurprise(actual, forecast)` — absent
from the source, which carries `surprise` as a literal data field of each
mock event.  If either argument fails to parse as a signed decimal the
result is `neutral`; otherwise the two decimal values are compared (by
cross-multiplied mantissas, equivalent to comparing `decimalValue`s). -/
def classifySurprise (actual forecast : String) : Surprise :=
  match parseSignedDecimal actual, parseSignedDecimal forecast with
  | some a, some f =>
      if a.1 * 10 ^ f.2 > f.1 * 10 ^ a.2 then .positive
      else if a.1 * 10 ^ f.2 < f.1 * 10 ^ a.2 then .negative
      else .neutral
  | _, _ => .neutral

/-- Modelled from the spec: the source's `EconomicEvent` has no
`releaseDate` field; the spec's data model adds `releaseDate` (the calendar
date the event belongs to).  A dated event pairs a source event with it. -/
structure DatedEvent where
  event : EconomicEvent
  releaseDate : String
deriving DecidableEq, Repr

/-- Modelled from the spec: `filterEventsByDate(events[], date)` — absent
from the source — returns the subset of events whose `releaseDate` equals
`date`, preserving original relative order. -/
def filterEventsByDate (events : List DatedEvent) (date : String) : List DatedEvent :=
  events.filter (fun e => e.releaseDate = date)

/-- The displayed event list of `EconomicCalendar.tsx` line 100: the
component maps over the full `events` array; the `selectedDate` state of
line 17 is never consulted, so the rendered list is the input list itself
whatever the element type carries. -/
def displayedEvents (events : List α) (_selectedDate : String) : List α :=
  events

/-- `assetClass` field values of `StrategyBuilder.tsx` line 9. -/
inductive AssetClass
  | equities | crypto | commodities | multi
deriving DecidableEq, Repr

/-- `status` field values of `StrategyBuilder.tsx` line 13. -/
inductive StrategyStatus
  | active | backtesting | paused
deriving DecidableEq, Repr

/-- The `Strategy` interface of `StrategyBuilder.tsx` lines 5–14. -/
structure Strategy where
  id : String
  sname : String
  sdescription : String
  assetClass : AssetClass
  sharpeRatio : ℚ
  totalReturn : ℚ
  maxDrawdown : ℚ
  status : StrategyStatus
deriving DecidableEq, Repr

/-- The `newStrategy` form state of `StrategyBuilder.tsx` lines 25–29. -/
structure NewStrategyForm where
  formName : String
  formDescription : String
  formAssetClass : AssetClass
deriving DecidableEq, Repr

/-- The initial `newStrategy` form value (`StrategyBuilder.tsx` lines 25–29):
`assetClass` defaults to `"equities"`. -/
def initialNewStrategy : NewStrategyForm := ⟨"", "", .equities⟩

/-- JS `String.prototype.trim()`: the string with leading and trailing
whitespace removed. -/
def jsTrim (s : String) : String :=
  ⟨((s.toList.dropWhile Char.isWhitespace).reverse.dropWhile Char.isWhitespace).reverse⟩

/-- The component state of `StrategyBuilder.tsx`: the `strategies` list and
the `newStrategy` form. -/
structure BuilderState where
  strategies : List Strategy
  newStrategy : NewStrategyForm
deriving DecidableEq, Repr

/-- `handleCreateStrategy` (`StrategyBuilder.tsx` lines 31–47).  It returns
early, changing nothing, when the trimmed name is empty (`!name.trim()` —
the empty string is the only falsy value of `trim`); otherwise it builds
`newStrat` with `id = Date.now().toString()` (the `now` argument models the
`Date.now()` call), the three metrics at `0` and `status = "backtesting"`,
prepends it, and resets the form to its initial value. -/
def handleCreateStrategy (now : ℕ) (s : BuilderState) : BuilderState :=
  if jsTrim s.newStrategy.formName = "" then s
  else
    { strategies :=
        { id := toString now
          sname := s.newStrategy.formName
          sdescription := s.newStrategy.formDescription
          assetClass := s.newStrategy.formAssetClass
          sharpeRatio := 0
          totalReturn := 0
          maxDrawdown := 0
          status := .backtesting } :: s.strategies
      newStrategy := ⟨"", "", .equities⟩ }

/-- The mock `strategies` state array of `StrategyBuilder.tsx` lines 17–23. -/
def mockStrategies : List Strategy :=
  [ ⟨"1", "CPI Momentum", "Buy when CPI < 3%, sell when > 5%", .equities, 1.8, 24.5, -8.2, .active⟩,
    ⟨"2", "Fed Speech Sentiment", "Long when Fed dovish, short when hawkish", .equities, 2.1, 32.1, -6.5, .active⟩,
    ⟨"3", "Bitcoin Halving Cycle", "Accumulate 6 months pre-halving, distribute post", .crypto, 3.2, 185.4, -25.3, .active⟩,
    ⟨"4", "Gold Inflation Hedge", "Allocate to gold when real yields negative", .commodities, 1.5, 18.7, -12.4, .backtesting⟩,
    ⟨"5", "Cross-Asset Risk Parity", "Risk-weighted allocation across stocks, bonds, gold, crypto", .multi, 2.4, 28.9, -9.8, .paused⟩ ]

/-- The first mock holding of `PortfolioTracker.tsx` line 20 (the spec's
end-to-end scenario holding). -/
def aaplHolding : Holding := ⟨"1", "AAPL", "Apple Inc.", .stock, 50, 175.25, 165.50, 2.3⟩

/-- A degenerate holding whose cost basis is zero (zero quantity). -/
def zeroBasisHolding : Holding := ⟨"9", "ZRO", "Zero Basis", .stock, 0, 10, 5, 0⟩

/-- Two dated events on distinct release dates, exercising the calendar's
display path of the spec's end-to-end scenario. -/
def demoDatedEvents : List DatedEvent :=
  [ ⟨⟨"1", "08:30 ET", "CPI Inflation", "US", 5, "3.2%", "3.1%", .positive⟩, "2026-02-13"⟩,
    ⟨⟨"2", "08:30 ET", "Retail Sales", "US", 4, "+0.4%", "+0.6%", .positive⟩, "2026-02-14"⟩ ]

/-! ## Helper lemmas -/

/-- The reduce of `totalGainLoss`, started from an arbitrary accumulator,
adds the sum of per-holding gains. -/
lemma totalGainLoss_foldl (holdings : List Holding) (acc : ℚ) :
    holdings.foldl (fun sum h => sum + (currentValue h - costBasis h)) acc =
      acc + (holdings.map gainLoss).sum := by
  induction holdings generalizing acc with
  | nil => simp
  | cons h t ih => simp [ih, gainLoss, add_assoc]

/-- Cross-multiplied mantissa comparison agrees with comparison of the
decimal values. -/
lemma cross_mul_lt_iff (a f : ℤ × ℕ) :
    a.1 * 10 ^ f.2 < f.1 * 10 ^ a.2 ↔ decimalValue a < decimalValue f := by
  unfold decimalValue
  rw [div_lt_div_iff₀ (by positivity) (by positivity)]
  constructor <;> intro h <;> exact_mod_cast h

/-- The three impact-group lengths sum to the input length when every
importance lies in 1..5. -/
lemma impact_groups_length (events : List EconomicEvent)
    (hb : ∀ e ∈ events, 1 ≤ e.importance ∧ e.importance ≤ 5) :
    (highImpactEvents events).length + (mediumImpactEvents events).length +
      (lowImpactEvents events).length = events.length := by
  induction events with
  | nil => simp [highImpactEvents, mediumImpactEvents, lowImpactEvents]
  | cons e t ih =>
      have hbe := hb e (List.mem_cons_self e t)
      have iht := ih (fun x hx => hb x (List.mem_cons_of_mem e hx))
      simp only [highImpactEvents, mediumImpactEvents, lowImpactEvents,
        List.filter_cons] at iht ⊢
      split_ifs with h1 h2 h3 h2 h3 h3 <;>
        simp_all <;> omega

/-! ## Claims -/

/-- C1: the spec requires `filterEventsByDate` to return exactly the events
whose `releaseDate` equals the selected date (empty when none match) and the
displayed list to be this filtered subset.  The source never applies the
filter: `EconomicCalendar.tsx` renders the full `events` array, ignoring
`selectedDate` (the repository's own issue list documents this as a bug).
At the concrete two-date input, selecting a third date filters to `[]` yet
the full list is displayed, and selecting the first date filters to the
first event alone yet the displayed list differs from that subset. -/
theorem c1_date_filter_not_applied :
    filterEventsByDate demoDatedEvents "2026-02-15" = [] ∧
    displayedEvents demoDatedEvents "2026-02-15" = demoDatedEvents ∧
    filterEventsByDate demoDatedEvents "2026-02-13" = demoDatedEvents.take 1 ∧
    displayedEvents demoDatedEvents "2026-02-13" ≠
      filterEventsByDate demoDatedEvents "2026-02-13" := by
  refine ⟨by decide, rfl, by decide, by decide⟩

/-- C2: the spec requires a defined sentinel instead of a raw division when
the cost basis (or the total prior value) is zero.  The source divides
unconditionally (`PortfolioTracker.tsx` lines 33 and 74): at a zero cost
basis the JS result is a non-finite `Infinity`/`NaN` (modelled `none`)
rendered unlabeled through `toFixed`, and likewise for the total percent
when `portfolioValue - totalGainLoss = 0`; no sentinel branch exists. -/
theorem c2_no_zero_division_sentinel :
    costBasis zeroBasisHolding = 0 ∧
    gainLossPercentNum zeroBasisHolding = none ∧
    totalGainLossPercentNum (totalGainLoss mockHoldings) mockHoldings = none := by
  refine ⟨?_, ?_, ?_⟩
  · norm_num [costBasis, zeroBasisHolding]
  · norm_num [gainLossPercentNum, costBasis, zeroBasisHolding]
  · simp [totalGainLossPercentNum]

/-- C3 counterexample: the surprise value carried by a displayed event is
not always `classifySurprise` of its fields — the first mock event (CPI
Inflation, actual "3.1%", forecast "3.2%") carries `surprise = positive`
while `classifySurprise` of its fields is `negative`. -/
theorem c3_surprise_field_not_classifySurprise :
    (mockEvents.get ⟨0, by decide⟩).surprise = Surprise.positive ∧
    classifySurprise (mockEvents.get ⟨0, by decide⟩).actual
      (mockEvents.get ⟨0, by decide⟩).forecast = Surprise.negative := by
  exact ⟨by decide, by decide⟩

/-- C3 (amended): `classifySurprise` returns `neutral` whenever either
string fails to parse as a signed decimal, and when both parse it compares
the decimal values — `positive` iff actual > forecast, `negative` iff
actual < forecast, `neutral` iff equal; in particular
`classifySurprise "3.1%" "3.2%" = negative`,
`classifySurprise "+0.6%" "+0.4%" = positive` and
`classifySurprise "Completed" "N/A" = neutral`.  The further conjunct that
every displayed event's `surprise` field equals this function is dropped:
the mock data encodes economic direction instead (see the counterexample). -/
theorem c3_classifySurprise_spec (actual forecast : String) :
    classifySurprise actual forecast =
      (match parseSignedDecimal actual, parseSignedDecimal forecast with
       | some a, some f =>
           if decimalValue a > decimalValue f then Surprise.positive
           else if decimalValue a < decimalValue f then Surprise.negative
           else Surprise.neutral
       | _, _ => Surprise.neutral) ∧
    classifySurprise "3.1%" "3.2%" = Surprise.negative ∧
    classifySurprise "+0.6%" "+0.4%" = Surprise.positive ∧
    classifySurprise "Completed" "N/A" = Surprise.neutral := by
  refine ⟨?_, by decide, by decide, by decide⟩
  unfold classifySurprise
  cases ha : parseSignedDecimal actual with
  | none => cases parseSignedDecimal forecast <;> rfl
  | some a =>
      cases hf : parseSignedDecimal forecast with
      | none => rfl
      | some f =>
          simp only
          rcases lt_trichotomy (decimalValue a) (decimalValue f) with hlt | heq | hgt
          · rw [if_neg (fun hc => absurd ((cross_mul_lt_iff f a).mp hc) (asymm hlt)),
              if_pos ((cross_mul_lt_iff a f).mpr hlt),
              if_neg (fun hc => absurd hc (asymm hlt)), if_pos hlt]
          · rw [if_neg (fun hc => absurd ((cross_mul_lt_iff f a).mp hc) (heq ▸ lt_irrefl _)),
              if_neg (fun hc => absurd ((cross_mul_lt_iff a f).mp hc) (heq ▸ lt_irrefl _)),
              if_neg (fun hc => absurd hc (heq ▸ lt_irrefl _)),
              if_neg (fun hc => absurd hc (heq ▸ lt_irrefl _))]
          · rw [if_pos ((cross_mul_lt_iff f a).mpr hgt), if_pos hgt]

/-- C4: per-holding valuation — `currentValue = quantity × currentPrice`,
`costBasis = quantity × averageCost`, `gainLoss = currentValue − costBasis`;
at the AAPL scenario holding (quantity 50, price 175.25, cost 165.50) the
values are 8762.50, 8275.00, 487.50, with percent within half a cent of
5.89. -/
theorem c4_computeHoldingValuation (h : Holding) :
    currentValue h = h.quantity * h.currentPrice ∧
    costBasis h = h.quantity * h.averageCost ∧
    gainLoss h = currentValue h - costBasis h ∧
    currentValue aaplHolding = 8762.50 ∧
    costBasis aaplHolding = 8275.00 ∧
    gainLoss aaplHolding = 487.50 ∧
    |gainLossPercent aaplHolding - 5.89| < 1 / 200 := by
  refine ⟨rfl, rfl, rfl, ?_, ?_, ?_, ?_⟩ <;>
    norm_num [gainLossPercent, gainLoss, currentValue, costBasis, aaplHolding, abs_lt]

/-- C5: `totalGainLoss` is the sum of per-holding `gainLoss`; under the
precondition that `portfolioValue − totalGainLoss ≠ 0`, the total percent is
`totalGainLoss / (portfolioValue − totalGainLoss) × 100`, where the
portfolio value is the externally supplied state scalar — which, on the mock
data, is not `Σ currentValue` over the holdings. -/
theorem c5_portfolio_summary (portfolioValue : ℚ) (holdings : List Holding)
    (_hdz : portfolioValue - totalGainLoss holdings ≠ 0) :
    totalGainLoss holdings = (holdings.map gainLoss).sum ∧
    totalGainLossPercent portfolioValue holdings =
      (holdings.map gainLoss).sum /
        (portfolioValue - (holdings.map gainLoss).sum) * 100 ∧
    mockPortfolioValue ≠ (mockHoldings.map currentValue).sum := by
  have hsum : totalGainLoss holdings = (holdings.map gainLoss).sum := by
    simpa using totalGainLoss_foldl holdings 0
  refine ⟨hsum, ?_, ?_⟩
  · rw [totalGainLossPercent, hsum]
  · norm_num [mockPortfolioValue, mockHoldings, currentValue]

/-- C5 witness: the theorem applied to the mock portfolio value and
holdings, whose divisor `125430.75 − 4853.225` is nonzero. -/
theorem c5_portfolio_summary_witness :
    mockPortfolioValue - totalGainLoss mockHoldings ≠ 0 ∧
    (totalGainLoss mockHoldings = (mockHoldings.map gainLoss).sum ∧
     totalGainLossPercent mockPortfolioValue mockHoldings =
       (mockHoldings.map gainLoss).sum /
         (mockPortfolioValue - (mockHoldings.map gainLoss).sum) * 100 ∧
     mockPortfolioValue ≠ (mockHoldings.map currentValue).sum) :=
  ⟨by norm_num [mockPortfolioValue, totalGainLoss, mockHoldings, currentValue, costBasis],
   c5_portfolio_summary mockPortfolioValue mockHoldings
     (by norm_num [mockPortfolioValue, totalGainLoss, mockHoldings, currentValue, costBasis])⟩

/-- C6: on the source's importance domain 1..5, the tier induced by the
grouping filters is High exactly on {4, 5}, Medium exactly on {3}, Low
exactly on {1, 2}; and importance 1, which no labeled case of
`getImportanceColor` covers, lands in the Low tier with the default gray
style. -/
theorem c6_classifyImportance (i : ℕ) (h1 : 1 ≤ i) (h5 : i ≤ 5) :
    (classifyImportance i = ImpactTier.High ↔ i = 4 ∨ i = 5) ∧
    (classifyImportance i = ImpactTier.Medium ↔ i = 3) ∧
    (classifyImportance i = ImpactTier.Low ↔ i = 1 ∨ i = 2) ∧
    (i = 1 → classifyImportance i = ImpactTier.Low ∧
      getImportanceColor i = "bg-gray-100 dark:bg-gray-900 text-gray-800 dark:text-gray-200") := by
  interval_cases i <;> decide

/-- C6 witness: the theorem applied at importance 4 (a High-tier input). -/
theorem c6_classifyImportance_witness :
    1 ≤ 4 ∧ 4 ≤ 5 ∧
    ((classifyImportance 4 = ImpactTier.High ↔ 4 = 4 ∨ 4 = 5) ∧
     (classifyImportance 4 = ImpactTier.Medium ↔ 4 = 3) ∧
     (classifyImportance 4 = ImpactTier.Low ↔ 4 = 1 ∨ 4 = 2) ∧
     (4 = 1 → classifyImportance 4 = ImpactTier.Low ∧
       getImportanceColor 4 = "bg-gray-100 dark:bg-gray-900 text-gray-800 dark:text-gray-200")) :=
  ⟨by decide, by decide, c6_classifyImportance 4 (by decide) (by decide)⟩

/-- C7: when the trimmed name is non-empty (and the fresh timestamp id does
not already occur in the list), `handleCreateStrategy` prepends exactly one
new strategy whose id is the timestamp string and is not carried by any
existing strategy, whose name/description/assetClass come from the form,
whose three metrics are 0 and whose status is `backtesting`; the form's
assetClass defaults to `equities`. -/
theorem c7_createStrategy (now : ℕ) (s : BuilderState)
    (hname : jsTrim s.newStrategy.formName ≠ "")
    (hid : toString now ∉ s.strategies.map Strategy.id) :
    ∃ newStrat : Strategy,
      (handleCreateStrategy now s).strategies = newStrat :: s.strategies ∧
      newStrat.id = toString now ∧
      newStrat.id ∉ s.strategies.map Strategy.id ∧
      newStrat.sname = s.newStrategy.formName ∧
      newStrat.sdescription = s.newStrategy.formDescription ∧
      newStrat.assetClass = s.newStrategy.formAssetClass ∧
      newStrat.sharpeRatio = 0 ∧
      newStrat.totalReturn = 0 ∧
      newStrat.maxDrawdown = 0 ∧
      newStrat.status = StrategyStatus.backtesting ∧
      initialNewStrategy.formAssetClass = AssetClass.equities := by
  refine ⟨{ id := toString now, sname := s.newStrategy.formName,
            sdescription := s.newStrategy.formDescription,
            assetClass := s.newStrategy.formAssetClass,
            sharpeRatio := 0, totalReturn := 0, maxDrawdown := 0,
            status := .backtesting },
    ?_, rfl, hid, rfl, rfl, rfl, rfl, rfl, rfl, rfl, rfl⟩
  rw [handleCreateStrategy, if_neg hname]

/-- C7 witness: the theorem applied to the mock strategies with form name
"Macro Carry" and timestamp 1760140800000, which is not an existing id. -/
theorem c7_createStrategy_witness :
    jsTrim (BuilderState.mk mockStrategies ⟨"Macro Carry", "Carry trade", AssetClass.multi⟩).newStrategy.formName ≠ "" ∧
    toString 1760140800000 ∉ (BuilderState.mk mockStrategies ⟨"Macro Carry", "Carry trade", AssetClass.multi⟩).strategies.map Strategy.id ∧
    (∃ newStrat : Strategy,
      (handleCreateStrategy 1760140800000
          (BuilderState.mk mockStrategies ⟨"Macro Carry", "Carry trade", AssetClass.multi⟩)).strategies =
        newStrat :: (BuilderState.mk mockStrategies ⟨"Macro Carry", "Carry trade", AssetClass.multi⟩).strategies ∧
      newStrat.id = toString 1760140800000 ∧
      newStrat.id ∉ (BuilderState.mk mockStrategies ⟨"Macro Carry", "Carry trade", AssetClass.multi⟩).strategies.map Strategy.id ∧
      newStrat.sname = "Macro Carry" ∧
      newStrat.sdescription = "Carry trade" ∧
      newStrat.assetClass = AssetClass.multi ∧
      newStrat.sharpeRatio = 0 ∧
      newStrat.totalReturn = 0 ∧
      newStrat.maxDrawdown = 0 ∧
      newStrat.status = StrategyStatus.backtesting ∧
      initialNewStrategy.formAssetClass = AssetClass.equities) :=
  ⟨by decide, by decide,
   c7_createStrategy 1760140800000
     (BuilderState.mk mockStrategies ⟨"Macro Carry", "Carry trade", AssetClass.multi⟩)
     (by decide) (by decide)⟩

/-- C8: when the trimmed name is empty, `handleCreateStrategy` is a no-op —
the whole component state, the strategy list included, is returned
unchanged, with no other effect. -/
theorem c8_createStrategy_rejects_empty (now : ℕ) (s : BuilderState)
    (hname : jsTrim s.newStrategy.formName = "") :
    handleCreateStrategy now s = s := by
  rw [handleCreateStrategy, if_pos hname]

/-- C8 witness: the theorem applied to a form whose name is two spaces. -/
theorem c8_createStrategy_rejects_empty_witness :
    jsTrim (BuilderState.mk mockStrategies ⟨"  ", "draft", AssetClass.crypto⟩).newStrategy.formName = "" ∧
    handleCreateStrategy 1760140800000 (BuilderState.mk mockStrategies ⟨"  ", "draft", AssetClass.crypto⟩) =
      BuilderState.mk mockStrategies ⟨"  ", "draft", AssetClass.crypto⟩ :=
  ⟨by decide,
   c8_createStrategy_rejects_empty 1760140800000
     (BuilderState.mk mockStrategies ⟨"  ", "draft", AssetClass.crypto⟩) (by decide)⟩

/-- C9: when every importance lies in 1..5, the three groups
`importance >= 4`, `importance === 3`, `importance <= 2` partition the event
list — each group is a sublist of the input (so relative order is
preserved), the group lengths sum to the input length, and every event of
the input belongs to exactly one group. -/
theorem c9_impact_groups_partition (events : List EconomicEvent)
    (hb : ∀ e ∈ events, 1 ≤ e.importance ∧ e.importance ≤ 5) :
    (highImpactEvents events).Sublist events ∧
    (mediumImpactEvents events).Sublist events ∧
    (lowImpactEvents events).Sublist events ∧
    (highImpactEvents events).length + (mediumImpactEvents events).length +
      (lowImpactEvents events).length = events.length ∧
    ∀ e ∈ events,
      (e ∈ highImpactEvents events ∧ e ∉ mediumImpactEvents events ∧
        e ∉ lowImpactEvents events) ∨
      (e ∉ highImpactEvents events ∧ e ∈ mediumImpactEvents events ∧
        e ∉ lowImpactEvents events) ∨
      (e ∉ highImpactEvents events ∧ e ∉ mediumImpactEvents events ∧
        e ∈ lowImpactEvents events) := by
  refine ⟨List.filter_sublist _, List.filter_sublist _, List.filter_sublist _,
    impact_groups_length events hb, ?_⟩
  intro e he
  simp only [highImpactEvents, mediumImpactEvents, lowImpactEvents,
    List.mem_filter, decide_eq_true_eq, he, true_and]
  omega

/-- C9 witness: the theorem applied to the mock events array, whose
importance values all lie in 1..5. -/
theorem c9_impact_groups_partition_witness :
    (∀ e ∈ mockEvents, 1 ≤ e.importance ∧ e.importance ≤ 5) ∧
    ((highImpactEvents mockEvents).Sublist mockEvents ∧
     (mediumImpactEvents mockEvents).Sublist mockEvents ∧
     (lowImpactEvents mockEvents).Sublist mockEvents ∧
     (highImpactEvents mockEvents).length + (mediumImpactEvents mockEvents).length +
       (lowImpactEvents mockEvents).length = mockEvents.length ∧
     ∀ e ∈ mockEvents,
       (e ∈ highImpactEvents mockEvents ∧ e ∉ mediumImpactEvents mockEvents ∧
         e ∉ lowImpactEvents mockEvents) ∨
       (e ∉ highImpactEvents mockEvents ∧ e ∈ mediumImpactEvents mockEvents ∧
         e ∉ lowImpactEvents mockEvents) ∨
       (e ∉ highImpactEvents mockEvents ∧ e ∉ mediumImpactEvents mockEvents ∧
         e ∈ lowImpactEvents mockEvents)) :=
  ⟨by decide, c9_impact_groups_partition mockEvents (by decide)⟩

/-- C10: for positive quantity and positive average cost, the per-holding
percent reduces to `(currentPrice − averageCost) / averageCost × 100`,
independent of the quantity. -/
theorem c10_gainLossPercent_quantity_free (h : Holding)
    (hq : 0 < h.quantity) (hc : 0 < h.averageCost) :
    gainLossPercent h = (h.currentPrice - h.averageCost) / h.averageCost * 100 := by
  unfold gainLossPercent gainLoss currentValue costBasis
  rw [div_mul_eq_mul_div, div_mul_eq_mul_div]
  rw [div_eq_div_iff (by positivity) (by positivity)]
  ring

/-- C10 witness: the theorem applied to the AAPL scenario holding. -/
theorem c10_gainLossPercent_quantity_free_witness :
    (0 : ℚ) < aaplHolding.quantity ∧ (0 : ℚ) < aaplHolding.averageCost ∧
    gainLossPercent aaplHolding =
      (aaplHolding.currentPrice - aaplHolding.averageCost) / aaplHolding.averageCost * 100 :=
  ⟨by norm_num [aaplHolding], by norm_num [aaplHolding],
   c10_gainLossPercent_quantity_free aaplHolding
     (by norm_num [aaplHolding]) (by norm_num [aaplHolding])⟩
